import Mathlib

/-!
Shallow embedding of `src/server/vad_processor.py` (function `process_audio`
and the `__main__` block).

External, side-effecting collaborators (torch.hub.load, os.makedirs,
Path.mkdir, torchaudio.load, librosa.resample, the silero VAD detector,
soundfile.write) are modelled as oracles recorded in an `Env`: each field
holds the outcome the corresponding call would produce during this
invocation (`Except String α` mirrors "returns a value or raises an
exception whose `str` is the given message").  The Python control flow —
the nested `try`/`except` blocks, the prints, the order of the calls — is
translated statement by statement.
-/

namespace VadProcessor

/-- One speech timestamp dict `{'start': ..., 'end': ...}` as returned by
`get_speech_timestamps`: a pair of sample indices at 16 kHz. -/
structure Interval where
  start : Nat
  «end» : Nat
  deriving DecidableEq, Repr

/-- One entry of `segments_info` (vad_processor.py lines 118–124). -/
structure Segment where
  index : Nat
  path : String
  start_time : Rat
  end_time : Rat
  duration : Rat
  deriving DecidableEq, Repr

/-- The value `process_audio` returns (as structured data rather than its
`json.dumps` rendering): either the success shape with the segment list or
the error shape with a message. -/
inductive PipelineResult where
  | success (segments : List Segment)
  | error (msg : String)
  deriving DecidableEq, Repr

/-- A detector as produced by a successful `torch.hub.load`: the
`get_speech_timestamps` entry of `utils`, taking the audio samples and the
sampling rate and either returning the speech timestamps or raising. -/
def Detector : Type := List Rat → Nat → Except String (List Interval)

/-- The outcomes of every external call `process_audio` can make during one
invocation.  `Except String α` = "returned α" or "raised an exception with
this `str`". -/
structure Env where
  /-- `Path(input_path).is_file()` (line 15). -/
  inputIsFile : Bool
  /-- `Path(output_dir).mkdir(parents=True, exist_ok=True)` (line 20). -/
  mkdirResult : Except String Unit
  /-- `sys.executable` (line 24). -/
  pyExe : String
  /-- `torch.__version__` (line 25). -/
  torchVersion : String
  /-- `torch.hub.get_dir()` (lines 26, 30, 58, 69). -/
  hubDir : String
  /-- `sys.version` (line 144). -/
  pyVersion : String
  /-- `os.makedirs(cache_dir, exist_ok=True)` (line 31). -/
  makedirsCacheResult : Except String Unit
  /-- First `torch.hub.load(..., force_reload=False, ...)` (lines 34–38). -/
  hubAttempt1 : Except String Detector
  /-- Second `torch.hub.load(..., force_reload=False, ...)` (lines 44–47). -/
  hubAttempt2 : Except String Detector
  /-- `os.makedirs(model_dir, exist_ok=True)` (line 59). -/
  makedirsModelResult : Except String Unit
  /-- `tempfile` + `urllib.request.urlretrieve` + `zipfile.extractall`
  (lines 63–69). -/
  downloadResult : Except String Unit
  /-- `torch.hub.load(..., force_reload=True, ...)` (lines 72–75). -/
  hubAttempt3 : Except String Detector
  /-- `torchaudio.load(input_path)` (line 84): the channels of the decoded
  waveform and the native sample rate. -/
  decodeResult : Except String (List (List Rat) × Nat)
  /-- `librosa.resample(audio, orig_sr=..., target_sr=...)` (line 91). -/
  resample : List Rat → Nat → Nat → List Rat
  /-- `soundfile.write(path, samples, 16000, subtype=PCM_16)` (lines
  107–112). -/
  writeResult : String → List Rat → Except String Unit

/-- One line of the process's standard output: either a bare `print(...)`
diagnostic or the printed `PipelineResult` JSON line. -/
inductive OutLine where
  | diag (s : String)
  | resultLine (r : PipelineResult)
  deriving DecidableEq, Repr

/-- The observable outcome of one `process_audio` call: its return value,
the filesystem side effects it performed, and the lines its bare
`print(...)` statements sent to standard output. -/
structure RunState where
  result : PipelineResult
  /-- Whether line 20 created (or confirmed) the output directory. -/
  dirCreated : Bool
  /-- Whether line 31 created (or confirmed) the torch hub cache dir. -/
  cacheDirCreated : Bool
  /-- How many times `torch.hub.load` was invoked. -/
  hubLoadCalls : Nat
  /-- Whether the emergency direct download (line 64) was reached. -/
  downloadAttempted : Bool
  /-- Whether `torchaudio.load` (line 84) was reached. -/
  decodeAttempted : Bool
  /-- Paths handed to `soundfile.write`, in order. -/
  filesWritten : List String
  /-- stdout lines emitted by `process_audio` itself (all of its prints are
  bare `print(...)`, which writes to standard output). -/
  stdout : List OutLine
  deriving DecidableEq, Repr

/-- Outcome of the model-acquisition block (lines 28–78). -/
structure AcqOut where
  out : List String
  cacheDirCreated : Bool
  hubLoadCalls : Nat
  downloadAttempted : Bool
  result : Except String Detector

/-- Lines 40–78: the fallback chain entered when strategy 1 fails with
message `m` (`out0`, `cache`, `calls` record what strategy 1 already did). -/
def acquireFallback (env : Env) (out0 : List String) (cache : Bool)
    (calls : Nat) (m : String) : AcqOut :=
  let out1 := out0 ++ ["Error loading model from online repository: " ++ m,
                       "Attempting to load from local cache..."]
  match env.hubAttempt2 with
  | .ok det =>
    { out := out1 ++ ["Successfully loaded VAD model from local cache"],
      cacheDirCreated := cache, hubLoadCalls := calls + 1,
      downloadAttempted := false, result := .ok det }
  | .error e2 =>
    let out2 := out1 ++
      ["Failed to load VAD model (both online and cache): " ++ e2,
       "Attempting emergency fallback to direct download..."]
    match env.makedirsModelResult with
    | .error e3 =>
      { out := out2, cacheDirCreated := cache, hubLoadCalls := calls + 1,
        downloadAttempted := false,
        result := .error ("All attempts to load VAD model failed: " ++ e3) }
    | .ok _ =>
      let out3 := out2 ++ ["Downloading model files directly..."]
      match env.downloadResult with
      | .error e3 =>
        { out := out3, cacheDirCreated := cache, hubLoadCalls := calls + 1,
          downloadAttempted := true,
          result := .error ("All attempts to load VAD model failed: " ++ e3) }
      | .ok _ =>
        let out4 := out3 ++ ["Downloaded and extracted model files to " ++
          env.hubDir ++ "/snakers4_silero-vad_master"]
        match env.hubAttempt3 with
        | .ok det =>
          { out := out4 ++ ["Successfully loaded VAD model after direct download"],
            cacheDirCreated := cache, hubLoadCalls := calls + 2,
            downloadAttempted := true, result := .ok det }
        | .error e3 =>
          { out := out4, cacheDirCreated := cache, hubLoadCalls := calls + 2,
            downloadAttempted := true,
            result := .error ("All attempts to load VAD model failed: " ++ e3) }

/-- Lines 28–78: tiered model acquisition.  Strategy 1 = makedirs on the
cache dir + `torch.hub.load` (network permitted, `force_reload=False`);
on failure the fallback chain runs. -/
def acquireDetector (env : Env) : AcqOut :=
  match env.makedirsCacheResult with
  | .ok _ =>
    let out0 := ["Verified cache directory exists: " ++ env.hubDir]
    match env.hubAttempt1 with
    | .ok det =>
      { out := out0 ++ ["Successfully loaded VAD model from online repository"],
        cacheDirCreated := true, hubLoadCalls := 1,
        downloadAttempted := false, result := .ok det }
    | .error e1 => acquireFallback env out0 true 1 e1
  | .error e0 => acquireFallback env [] false 0 e0

/-- Lines 89–94: resample the first-channel samples to 16 kHz when the
native rate differs, otherwise leave them untouched.  The rate of the
resulting buffer is the `target_sr=16000` handed to `librosa.resample` in
the first branch and the (equal to 16000) native rate in the second. -/
def normalizeBuffer (env : Env) (samples : List Rat) (sr : Nat) :
    List Rat × Nat :=
  if sr ≠ 16000 then (env.resample samples sr 16000, 16000)
  else (samples, sr)

/-- Lines 103, 118–124: the `segments_info` entry built for the `i`-th
(0-based) timestamp `ts`.  Python divides ints with `/`, which is exact
rational division for these values. -/
def mkSegment (output_dir : String) (i : Nat) (ts : Interval) : Segment :=
  { index := i + 1,
    path := output_dir ++ "/segment_" ++ toString (i + 1) ++ ".wav",
    start_time := (ts.start : Rat) / 16,
    end_time := (ts.«end» : Rat) / 16,
    duration := ((ts.«end» : Rat) - (ts.start : Rat)) / 16 }

/-- Lines 100–124: the extraction loop `for i, ts in enumerate(...)`,
started at 0-based position `i`.  Returns the paths written (in order)
and either the collected `segments_info` or the message of the write
exception that aborted the loop (files written before the abort remain). -/
def extractLoop (env : Env) (output_dir : String) (samples : List Rat) :
    List Interval → Nat → List String × Except String (List Segment)
  | [], _ => ([], .ok [])
  | ts :: rest, i =>
    let segPath := output_dir ++ "/segment_" ++ toString (i + 1) ++ ".wav"
    let slice := (samples.drop ts.start).take (ts.«end» - ts.start)
    match env.writeResult segPath slice with
    | .error e => ([], .error e)
    | .ok _ =>
      let tail := extractLoop env output_dir samples rest (i + 1)
      (segPath :: tail.1,
       match tail.2 with
       | .ok segs => .ok (mkSegment output_dir i ts :: segs)
       | .error e => .error e)

/-- Python str of the IndexError raised by `waveform.numpy()[0]` on a
zero-channel array. -/
def pyIndexErrMsg : String := "index 0 is out of bounds for axis 0 with size 0"

/-- What happens after model acquisition resolved to `acqRes`
(lines 79–130 plus the final `except` clause of lines 132–138). -/
structure PostAcq where
  result : PipelineResult
  decodeAttempted : Bool
  filesWritten : List String
  outTail : List OutLine

/-- Lines 79–138 given the acquisition outcome: unpack utils, decode,
normalize, detect, extract, and map any raised exception to the error
shape (printing `Error in process_audio: ...` on the way, line 134). -/
def pipelineAfterAcq (env : Env) (output_dir : String)
    (acqRes : Except String Detector) : PostAcq :=
  match acqRes with
  | .error e =>
    { result := .error e, decodeAttempted := false, filesWritten := [],
      outTail := [.diag ("Error in process_audio: " ++ e)] }
  | .ok det =>
    match env.decodeResult with
    | .error e =>
      { result := .error ("Failed to read audio file: " ++ e),
        decodeAttempted := true, filesWritten := [],
        outTail := [.diag ("Error in process_audio: Failed to read audio file: " ++ e)] }
    | .ok (channels, sr) =>
      match channels with
      | [] =>
        { result := .error ("Failed to read audio file: " ++ pyIndexErrMsg),
          decodeAttempted := true, filesWritten := [],
          outTail := [.diag ("Error in process_audio: Failed to read audio file: " ++ pyIndexErrMsg)] }
      | c :: _ =>
        let buf := normalizeBuffer env c sr
        match det buf.1 16000 with
        | .error e =>
          { result := .error e, decodeAttempted := true, filesWritten := [],
            outTail := [.diag ("Error in process_audio: " ++ e)] }
        | .ok intervals =>
          let ex := extractLoop env output_dir buf.1 intervals 0
          match ex.2 with
          | .ok segs =>
            { result := .success segs, decodeAttempted := true,
              filesWritten := ex.1, outTail := [] }
          | .error e =>
            { result := .error e, decodeAttempted := true,
              filesWritten := ex.1,
              outTail := [.diag ("Error in process_audio: " ++ e)] }

/-- Lines 12–138: `process_audio(input_path, output_dir)`.  The whole body
sits in the outer `try`; any exception reaches line 132 and becomes the
error shape, so the function always returns one of the two shapes. -/
def process_audio (env : Env) (input_path output_dir : String) : RunState :=
  if env.inputIsFile = false then
    { result := .error ("Input audio file not found: " ++ input_path),
      dirCreated := false, cacheDirCreated := false, hubLoadCalls := 0,
      downloadAttempted := false, decodeAttempted := false,
      filesWritten := [],
      stdout := [.diag ("Error in process_audio: Input audio file not found: " ++ input_path)] }
  else
    match env.mkdirResult with
    | .error e =>
      { result := .error e, dirCreated := false, cacheDirCreated := false,
        hubLoadCalls := 0, downloadAttempted := false,
        decodeAttempted := false, filesWritten := [],
        stdout := [.diag ("Error in process_audio: " ++ e)] }
    | .ok _ =>
      let preOut : List OutLine :=
        [.diag "Loading VAD model...",
         .diag ("Python executable: " ++ env.pyExe),
         .diag ("Torch version: " ++ env.torchVersion),
         .diag ("Torch hub cache location: " ++ env.hubDir)]
      let acq := acquireDetector env
      let post := pipelineAfterAcq env output_dir acq.result
      { result := post.result, dirCreated := true,
        cacheDirCreated := acq.cacheDirCreated,
        hubLoadCalls := acq.hubLoadCalls,
        downloadAttempted := acq.downloadAttempted,
        decodeAttempted := post.decodeAttempted,
        filesWritten := post.filesWritten,
        stdout := preOut ++ acq.out.map OutLine.diag ++ post.outTail }

/-- The whole-process observation for the `__main__` block. -/
structure MainOut where
  stdout : List OutLine
  stderr : List String
  exitCode : Nat

/-- Python `repr` of `sys.argv` as interpolated by
`f"Arguments received: {sys.argv}"`. -/
def pyArgvRepr (argv : List String) : String :=
  "[" ++ String.intercalate ", " (argv.map (fun s => "\x27" ++ s ++ "\x27")) ++ "]"

/-- Lines 140–162: the `__main__` block.  Debug prints go to stderr
(`file=sys.stderr`); the usage error and the `process_audio` result are
printed to stdout. -/
def mainRun (env : Env) (argv : List String) : MainOut :=
  let dbg := ["Python version: " ++ env.pyVersion,
              "Arguments received: " ++ pyArgvRepr argv]
  match argv with
  | [_, input_path, output_dir] =>
    let st := process_audio env input_path output_dir
    { stdout := st.stdout ++ [.resultLine st.result],
      stderr := dbg ++ ["Input path: " ++ input_path,
                        "Output directory: " ++ output_dir],
      exitCode := 0 }
  | _ =>
    { stdout := [.resultLine (.error ("Expected 2 arguments, got " ++
        toString (argv.length - 1) ++
        ". Usage: python vad_processor.py <input_file> <output_dir>"))],
      stderr := dbg, exitCode := 1 }

/-- The message of the first failing step of the emergency (third)
strategy, `none` when every step of it succeeds. -/
def emergencyMsg (env : Env) : Option String :=
  match env.makedirsModelResult with
  | .error e => some e
  | .ok _ =>
    match env.downloadResult with
    | .error e => some e
    | .ok _ =>
      match env.hubAttempt3 with
      | .error e => some e
      | .ok _ => none

/-- The parameters the repository passes to each `torch.hub.load` call
(`verbose` omitted: strategy 1 passes `verbose=True` explicitly, which is
also the library default and affects logging only). -/
structure HubCall where
  repoOrDir : String
  model : String
  forceReload : Bool
  trustRepo : Bool
  deriving DecidableEq, Repr

/-- The strategy-1 call, lines 34–38. -/
def strategy1Call : HubCall :=
  { repoOrDir := "snakers4/silero-vad", model := "silero_vad",
    forceReload := false, trustRepo := true }

/-- The strategy-2 call, lines 44–47. -/
def strategy2Call : HubCall :=
  { repoOrDir := "snakers4/silero-vad", model := "silero_vad",
    forceReload := false, trustRepo := true }

/-- The strategy-3 call, lines 72–75. -/
def strategy3Call : HubCall :=
  { repoOrDir := "snakers4/silero-vad", model := "silero_vad",
    forceReload := true, trustRepo := true }

/-- Modelled from the spec: the network behaviour of the external
`torch.hub.load` collaborator, which is not part of this repository.
Spec 4.1 describes the `force_reload=False` call of strategy 1 as
"attempt to obtain the model from its canonical remote source, permitting
network access, without forcing a fresh re-download if a cached artifact
already validates": the call uses the cache when a cached artifact is
present and otherwise fetches over the network; `force_reload=True`
always fetches. -/
def hubLoadAccessesNetwork (forceReload cachePopulated : Bool) : Bool :=
  forceReload || !cachePopulated

/-- A detector reporting no speech at all. -/
def detNone : Detector := fun _ _ => .ok []

/-- A detector reporting one five-second interval at 16 kHz. -/
def detOne : Detector := fun _ _ => .ok [⟨0, 80000⟩]

/-- A fully cooperative environment: input exists, all external calls
succeed, decoding yields one 16 kHz channel. -/
def baseEnv : Env :=
  { inputIsFile := true
    mkdirResult := .ok ()
    pyExe := "/usr/bin/python3"
    torchVersion := "2.1.0"
    hubDir := "/root/.cache/torch/hub"
    pyVersion := "3.10.12"
    makedirsCacheResult := .ok ()
    hubAttempt1 := .ok detOne
    hubAttempt2 := .error "cache miss"
    makedirsModelResult := .ok ()
    downloadResult := .ok ()
    hubAttempt3 := .error "network unreachable"
    decodeResult := .ok ([[0, 1, 0, -1]], 16000)
    resample := fun s _ _ => s
    writeResult := fun _ _ => .ok () }

/-- Every segment in a successfully returned `segments_info` list comes
from some timestamp of the interval list via `mkSegment`. -/
lemma extractLoop_mem (env : Env) (outdir : String) (samples : List Rat) :
    ∀ (intervals : List Interval) (i : Nat) (segs : List Segment),
      (extractLoop env outdir samples intervals i).2 = .ok segs →
      ∀ seg ∈ segs, ∃ j ts, ts ∈ intervals ∧ seg = mkSegment outdir j ts := by
  intro intervals
  induction intervals with
  | nil =>
    intro i segs h seg hseg
    simp only [extractLoop] at h
    cases h
    simp at hseg
  | cons ts rest ih =>
    intro i segs h seg hseg
    simp only [extractLoop] at h
    split at h
    · cases h
    · dsimp only at h
      split at h
      · rename_i segs2 heq
        cases h
        rcases List.mem_cons.mp hseg with hhd | htl
        · exact ⟨i, ts, List.mem_cons_self ts rest, hhd⟩
        · obtain ⟨j, ts2, hmem, hval⟩ := ih (i + 1) segs2 heq seg htl
          exact ⟨j, ts2, List.mem_cons_of_mem ts hmem, hval⟩
      · cases h

/-- When every `soundfile.write` succeeds, the extraction loop succeeds
and produces one segment per interval, in order. -/
lemma extractLoop_all_ok (env : Env) (outdir : String) (samples : List Rat)
    (hw : ∀ p x, env.writeResult p x = .ok ()) :
    ∀ (intervals : List Interval) (i : Nat),
      ∃ segs, (extractLoop env outdir samples intervals i).2 = .ok segs ∧
        (extractLoop env outdir samples intervals i).1 = segs.map Segment.path ∧
        segs.length = intervals.length ∧
        segs.map Segment.index = List.range' (i + 1) intervals.length ∧
        ∀ j (hj : j < segs.length) (hj2 : j < intervals.length),
          segs.get ⟨j, hj⟩ = mkSegment outdir (i + j) (intervals.get ⟨j, hj2⟩) := by
  intro intervals
  induction intervals with
  | nil =>
    intro i
    refine ⟨[], rfl, rfl, rfl, rfl, ?_⟩
    intro j hj hj2
    exact absurd hj (by simp)
  | cons ts rest ih =>
    intro i
    obtain ⟨segs, h1, h2, h3, h4, h5⟩ := ih (i + 1)
    refine ⟨mkSegment outdir i ts :: segs, ?_, ?_, ?_, ?_, ?_⟩
    · simp only [extractLoop, hw, h1]
    · simp only [extractLoop, hw, h1]
      simp [h2, mkSegment]
    · simp [h3]
    · simp only [List.map_cons, List.length_cons, List.range']
      refine congrArg (List.cons (i + 1)) ?_
      have : i + 1 + 1 = i + 2 := rfl
      simpa [this] using h4
    · intro j hj hj2
      cases j with
      | zero => simp
      | succ k =>
        simp only [List.get_cons_succ]
        have hk : k < segs.length := by
          simpa using Nat.lt_of_succ_lt_succ hj
        have hk2 : k < rest.length := by
          simpa using Nat.lt_of_succ_lt_succ hj2
        rw [h5 k hk hk2]
        have : i + (k + 1) = i + 1 + k := by omega
        simp [this]

/-- A failing acquisition fallback means strategy 2 failed and the final
message wraps the emergency strategy's own first failure. -/
lemma acquireFallback_error (env : Env) (out0 : List String) (cache : Bool)
    (calls : Nat) (m m2 : String)
    (h : (acquireFallback env out0 cache calls m).result = .error m2) :
    (∃ e2, env.hubAttempt2 = .error e2) ∧
    ∃ e3, emergencyMsg env = some e3 ∧
      m2 = "All attempts to load VAD model failed: " ++ e3 := by
  unfold acquireFallback at h
  unfold emergencyMsg
  cases h2 : env.hubAttempt2 with
  | ok det => rw [h2] at h; cases h
  | error e2 =>
    rw [h2] at h
    refine ⟨⟨e2, rfl⟩, ?_⟩
    cases hm : env.makedirsModelResult with
    | error e3 =>
      rw [hm] at h
      cases h
      exact ⟨e3, rfl, rfl⟩
    | ok u =>
      cases u
      rw [hm] at h
      cases hd : env.downloadResult with
      | error e3 =>
        rw [hd] at h
        cases h
        exact ⟨e3, rfl, rfl⟩
      | ok u2 =>
        cases u2
        rw [hd] at h
        cases h3 : env.hubAttempt3 with
        | ok det => rw [h3] at h; cases h
        | error e3 =>
          rw [h3] at h
          cases h
          exact ⟨e3, rfl, rfl⟩

/-- C1: for every input path and output directory, `process_audio` returns
exactly one of the two `PipelineResult` shapes and never propagates a
failure: a missing input, a mkdir failure, an acquisition failure (all
three strategies exhausted), a decode failure, a detector failure, and a
segment-write failure are each caught and mapped to the error shape with
the corresponding message. -/
theorem claim_C1 (env : Env) (p d : String) :
    ((∃ s, (process_audio env p d).result = .success s) ∨
      (∃ m, (process_audio env p d).result = .error m)) ∧
    (env.inputIsFile = false →
      (process_audio env p d).result =
        .error ("Input audio file not found: " ++ p)) ∧
    (∀ e, env.inputIsFile = true → env.mkdirResult = .error e →
      (process_audio env p d).result = .error e) ∧
    (∀ m, env.inputIsFile = true → env.mkdirResult = .ok () →
      (acquireDetector env).result = .error m →
      (process_audio env p d).result = .error m) ∧
    (∀ det e, env.inputIsFile = true → env.mkdirResult = .ok () →
      (acquireDetector env).result = .ok det →
      env.decodeResult = .error e →
      (process_audio env p d).result =
        .error ("Failed to read audio file: " ++ e)) ∧
    (∀ det e c cs sr, env.inputIsFile = true → env.mkdirResult = .ok () →
      (acquireDetector env).result = .ok det →
      env.decodeResult = .ok (c :: cs, sr) →
      det (normalizeBuffer env c sr).1 16000 = .error e →
      (process_audio env p d).result = .error e) ∧
    (∀ det e c cs sr intervals, env.inputIsFile = true →
      env.mkdirResult = .ok () →
      (acquireDetector env).result = .ok det →
      env.decodeResult = .ok (c :: cs, sr) →
      det (normalizeBuffer env c sr).1 16000 = .ok intervals →
      (extractLoop env d (normalizeBuffer env c sr).1 intervals 0).2 = .error e →
      (process_audio env p d).result = .error e) := by
  refine ⟨?_, ?_, ?_, ?_, ?_, ?_, ?_⟩
  · cases h : (process_audio env p d).result with
    | success s => exact Or.inl ⟨s, rfl⟩
    | error m => exact Or.inr ⟨m, rfl⟩
  · intro h
    simp [process_audio, h]
  · intro e h1 h2
    simp [process_audio, h1, h2]
  · intro m h1 h2 h3
    simp [process_audio, pipelineAfterAcq, h1, h2, h3]
  · intro det e h1 h2 h3 h4
    simp [process_audio, pipelineAfterAcq, h1, h2, h3, h4]
  · intro det e c cs sr h1 h2 h3 h4 h5
    simp [process_audio, pipelineAfterAcq, h1, h2, h3, h4, h5]
  · intro det e c cs sr intervals h1 h2 h3 h4 h5 h6
    simp [process_audio, pipelineAfterAcq, h1, h2, h3, h4, h5, h6]

/-- An environment whose input path names no regular file. -/
def envC1 : Env := { baseEnv with inputIsFile := false }

/-- C1 witness: the missing-input failure is mapped to the error shape. -/
theorem claim_C1_witness :
    envC1.inputIsFile = false ∧
    (process_audio envC1 "in.wav" "out").result =
      .error ("Input audio file not found: " ++ "in.wav") :=
  ⟨rfl, (claim_C1 envC1 "in.wav" "out").2.1 rfl⟩

/-- C2: every segment emitted for a detector interval has
`duration = end_time - start_time`, `start_time < end_time` (when the
interval is strictly increasing), and all three values are the interval's
sample indices divided by 16. -/
theorem claim_C2 (env : Env) (outdir : String) (samples : List Rat)
    (intervals : List Interval) (segs : List Segment) (i : Nat)
    (hok : (extractLoop env outdir samples intervals i).2 = .ok segs)
    (hlt : ∀ ts ∈ intervals, ts.start < ts.«end») :
    ∀ seg ∈ segs,
      seg.duration = seg.end_time - seg.start_time ∧
      seg.start_time < seg.end_time ∧
      ∃ ts ∈ intervals,
        seg.start_time = (ts.start : Rat) / 16 ∧
        seg.end_time = (ts.«end» : Rat) / 16 ∧
        seg.duration = ((ts.«end» : Rat) - (ts.start : Rat)) / 16 := by
  intro seg hseg
  obtain ⟨j, ts, hmem, rfl⟩ :=
    extractLoop_mem env outdir samples intervals i segs hok seg hseg
  have hst : (ts.start : Rat) < (ts.«end» : Rat) := by
    exact_mod_cast hlt ts hmem
  refine ⟨?_, ?_, ts, hmem, rfl, rfl, rfl⟩
  · simp only [mkSegment]
    ring
  · simp only [mkSegment]
    linarith

/-- An all-cooperative environment for the timing witness. -/
def envC2 : Env := baseEnv

/-- C2 witness: the single interval (0, 80000) yields a segment with
start 0 ms, end 5000 ms, duration 5000 ms satisfying the invariants. -/
theorem claim_C2_witness :
    (mkSegment "out" 0 ⟨0, 80000⟩).duration =
      (mkSegment "out" 0 ⟨0, 80000⟩).end_time -
        (mkSegment "out" 0 ⟨0, 80000⟩).start_time ∧
    (mkSegment "out" 0 ⟨0, 80000⟩).start_time <
      (mkSegment "out" 0 ⟨0, 80000⟩).end_time ∧
    (mkSegment "out" 0 ⟨0, 80000⟩).end_time = 5000 := by
  have h := claim_C2 envC2 "out" [] [⟨0, 80000⟩]
    [mkSegment "out" 0 ⟨0, 80000⟩] 0 rfl (by decide)
  have h2 := h (mkSegment "out" 0 ⟨0, 80000⟩) (by simp)
  refine ⟨h2.1, h2.2.1, by norm_num [mkSegment]⟩

/-- C3 (refuting evidence): the strategy-2 load call the code issues is
the very same call as strategy 1 — `force_reload=False`, network
permitted — so with an empty cache (the situation after a first-ever
strategy-1 failure) it accesses the network instead of being
cache-only. -/
theorem claim_C3_cache_only_violated :
    strategy2Call = strategy1Call ∧
    strategy2Call.forceReload = false ∧
    hubLoadAccessesNetwork strategy2Call.forceReload false = true :=
  ⟨rfl, rfl, rfl⟩

/-- C4: every strategy failure is caught while a later strategy remains
(strategy 1 failing and strategy 2 succeeding yields the strategy-2
detector; strategies 1 and 2 failing and strategy 3 succeeding yields the
strategy-3 detector), and acquisition fails only after all three
strategies failed, with a message wrapping the emergency strategy's own
error. -/
theorem claim_C4 (env : Env) :
    (∀ e1 det, env.makedirsCacheResult = .ok () →
      env.hubAttempt1 = .error e1 → env.hubAttempt2 = .ok det →
      (acquireDetector env).result = .ok det) ∧
    (∀ e1 e2 det, env.makedirsCacheResult = .ok () →
      env.hubAttempt1 = .error e1 → env.hubAttempt2 = .error e2 →
      env.makedirsModelResult = .ok () → env.downloadResult = .ok () →
      env.hubAttempt3 = .ok det →
      (acquireDetector env).result = .ok det) ∧
    (∀ m, (acquireDetector env).result = .error m →
      (env.makedirsCacheResult = .ok () →
        ∃ e1, env.hubAttempt1 = .error e1) ∧
      (∃ e2, env.hubAttempt2 = .error e2) ∧
      ∃ e3, emergencyMsg env = some e3 ∧
        m = "All attempts to load VAD model failed: " ++ e3) := by
  refine ⟨?_, ?_, ?_⟩
  · intro e1 det h1 h2 h3
    simp [acquireDetector, acquireFallback, h1, h2, h3]
  · intro e1 e2 det h1 h2 h3 h4 h5 h6
    simp [acquireDetector, acquireFallback, h1, h2, h3, h4, h5, h6]
  · intro m h
    unfold acquireDetector at h
    cases hc : env.makedirsCacheResult with
    | ok u =>
      cases u
      rw [hc] at h
      cases h1 : env.hubAttempt1 with
      | ok det =>
        rw [h1] at h
        cases h
      | error e1 =>
        rw [h1] at h
        obtain ⟨ha, hb⟩ := acquireFallback_error env _ true 1 e1 m h
        exact ⟨fun _ => ⟨e1, rfl⟩, ha, hb⟩
    | error e0 =>
      rw [hc] at h
      obtain ⟨ha, hb⟩ := acquireFallback_error env [] false 0 e0 m h
      refine ⟨fun hcon => ?_, ha, hb⟩
      cases hcon

/-- An environment where the fresh remote fetch fails but the second
attempt succeeds. -/
def envC4 : Env :=
  { baseEnv with hubAttempt1 := .error "http error 403",
                 hubAttempt2 := .ok detOne }

/-- C4 witness: with strategy 1 failing and strategy 2 succeeding, the
acquirer returns the strategy-2 detector. -/
theorem claim_C4_witness :
    envC4.hubAttempt1 = .error "http error 403" ∧
    envC4.hubAttempt2 = .ok detOne ∧
    (acquireDetector envC4).result = .ok detOne :=
  ⟨rfl, rfl, (claim_C4 envC4).1 "http error 403" detOne rfl rfl rfl⟩

/-- An environment whose input path names no regular file, used to run the
whole-process observation. -/
def envC5 : Env := { baseEnv with inputIsFile := false }

/-- C5 (refuting evidence): invoked on a nonexistent input, the process
writes two lines to standard output — the bare-print diagnostic
`Error in process_audio: ...` and the result JSON — because every
diagnostic print inside `process_audio` goes to standard output, not
standard error; so stdout does not carry exactly one line. -/
theorem claim_C5_stdout_not_single_line :
    (mainRun envC5 ["vad_processor.py", "missing.wav", "out"]).stdout =
      [OutLine.diag "Error in process_audio: Input audio file not found: missing.wav",
       OutLine.resultLine (.error "Input audio file not found: missing.wav")] ∧
    (mainRun envC5 ["vad_processor.py", "missing.wav", "out"]).stdout.length = 2 := by
  constructor
  · rfl
  · rfl

/-- An environment whose input path names no regular file, with every
other collaborator cooperative. -/
def envC6 : Env := { baseEnv with inputIsFile := false }

/-- C6: a nonexistent input yields the error shape whose message names the
missing path, and no side effect happens: no output directory, no cache
directory, no hub load, no download, no decode, no file written. -/
theorem claim_C6 (env : Env) (p d : String) (h : env.inputIsFile = false) :
    (process_audio env p d).result =
      .error ("Input audio file not found: " ++ p) ∧
    (process_audio env p d).dirCreated = false ∧
    (process_audio env p d).cacheDirCreated = false ∧
    (process_audio env p d).hubLoadCalls = 0 ∧
    (process_audio env p d).downloadAttempted = false ∧
    (process_audio env p d).decodeAttempted = false ∧
    (process_audio env p d).filesWritten = [] := by
  simp [process_audio, h]

/-- C6 witness: concrete nonexistent input. -/
theorem claim_C6_witness :
    envC6.inputIsFile = false ∧
    (process_audio envC6 "ghost.wav" "outdir").result =
      .error ("Input audio file not found: " ++ "ghost.wav") ∧
    (process_audio envC6 "ghost.wav" "outdir").dirCreated = false := by
  have h := claim_C6 envC6 "ghost.wav" "outdir" rfl
  exact ⟨rfl, h.1, h.2.1⟩

/-- C7: the buffer handed to the detector always has rate exactly 16000;
when the native rate differs from 16000 its samples are the
`librosa.resample` output at target 16000, and when the native rate is
16000 the buffer is exactly the decoded first-channel samples (identity
path, no resampling). -/
theorem claim_C7 (env : Env) (samples : List Rat) (sr : Nat) :
    (normalizeBuffer env samples sr).2 = 16000 ∧
    (sr ≠ 16000 →
      normalizeBuffer env samples sr = (env.resample samples sr 16000, 16000)) ∧
    (sr = 16000 → normalizeBuffer env samples sr = (samples, sr)) := by
  unfold normalizeBuffer
  by_cases h : sr = 16000
  · subst h
    simp
  · simp [h]

/-- A cooperative environment for the rate-normalization witness. -/
def envC7 : Env := baseEnv

/-- C7 witness: a 44100 Hz input goes through the resampler to rate 16000,
and a 16000 Hz input passes through unchanged. -/
theorem claim_C7_witness :
    ((44100 : Nat) ≠ 16000) ∧
    normalizeBuffer envC7 [1, 2] 44100 =
      (envC7.resample [1, 2] 44100 16000, 16000) ∧
    normalizeBuffer envC7 [1, 2] 16000 = ([1, 2], 16000) :=
  ⟨by decide, (claim_C7 envC7 [1, 2] 44100).2.1 (by decide),
    (claim_C7 envC7 [1, 2] 16000).2.2 rfl⟩

/-- C8: for a detector sequence of length N, extraction produces exactly N
segments, indexed exactly 1..N in the detector's order, the j-th segment
built by `mkSegment` from the j-th interval (hence written to
`segment_{j+1}.wav`), and the files written are exactly those paths in
order; no interval is reordered or filtered out. -/
theorem claim_C8 (env : Env) (outdir : String) (samples : List Rat)
    (intervals : List Interval)
    (hw : ∀ p x, env.writeResult p x = .ok ()) :
    ∃ segs, (extractLoop env outdir samples intervals 0).2 = .ok segs ∧
      (extractLoop env outdir samples intervals 0).1 = segs.map Segment.path ∧
      segs.length = intervals.length ∧
      segs.map Segment.index = List.range' 1 intervals.length ∧
      ∀ j (hj : j < segs.length) (hj2 : j < intervals.length),
        segs.get ⟨j, hj⟩ = mkSegment outdir j (intervals.get ⟨j, hj2⟩) := by
  obtain ⟨segs, h1, h2, h3, h4, h5⟩ :=
    extractLoop_all_ok env outdir samples hw intervals 0
  refine ⟨segs, h1, h2, h3, by simpa using h4, ?_⟩
  intro j hj hj2
  simpa using h5 j hj hj2

/-- A cooperative environment for the extraction witness. -/
def envC8 : Env := baseEnv

/-- C8 witness: two intervals yield two segments indexed 1, 2 with the
expected file names. -/
theorem claim_C8_witness :
    (∀ p x, envC8.writeResult p x = .ok ()) ∧
    ∃ segs,
      (extractLoop envC8 "out" [] [⟨0, 16⟩, ⟨16, 32⟩] 0).2 = .ok segs ∧
      (extractLoop envC8 "out" [] [⟨0, 16⟩, ⟨16, 32⟩] 0).1 =
        segs.map Segment.path ∧
      segs.length = ([⟨0, 16⟩, ⟨16, 32⟩] : List Interval).length ∧
      segs.map Segment.index =
        List.range' 1 ([⟨0, 16⟩, ⟨16, 32⟩] : List Interval).length ∧
      ∀ j (hj : j < segs.length)
        (hj2 : j < ([⟨0, 16⟩, ⟨16, 32⟩] : List Interval).length),
        segs.get ⟨j, hj⟩ =
          mkSegment "out" j (([⟨0, 16⟩, ⟨16, 32⟩] : List Interval).get ⟨j, hj2⟩) :=
  ⟨fun _ _ => rfl,
    claim_C8 envC8 "out" [] [⟨0, 16⟩, ⟨16, 32⟩] (fun _ _ => rfl)⟩

/-- C9: an empty detector interval sequence yields the success shape with
an empty segment list and no file written. -/
theorem claim_C9 (env : Env) (p d : String) (det : Detector)
    (h1 : env.inputIsFile = true) (h2 : env.mkdirResult = .ok ())
    (h3 : (acquireDetector env).result = .ok det)
    (c : List Rat) (cs : List (List Rat)) (sr : Nat)
    (h4 : env.decodeResult = .ok (c :: cs, sr))
    (h5 : det (normalizeBuffer env c sr).1 16000 = .ok []) :
    (process_audio env p d).result = .success [] ∧
    (process_audio env p d).filesWritten = [] := by
  constructor
  · simp [process_audio, pipelineAfterAcq, h1, h2, h3, h4, h5, extractLoop]
  · simp [process_audio, pipelineAfterAcq, h1, h2, h3, h4, h5, extractLoop]

/-- A cooperative environment whose detector finds no speech. -/
def envC9 : Env := { baseEnv with hubAttempt1 := .ok detNone }

/-- C9 witness: silence-only input is a successful outcome. -/
theorem claim_C9_witness :
    (acquireDetector envC9).result = .ok detNone ∧
    detNone (normalizeBuffer envC9 [0, 1, 0, -1] 16000).1 16000 = .ok [] ∧
    (process_audio envC9 "quiet.wav" "out").result = .success [] ∧
    (process_audio envC9 "quiet.wav" "out").filesWritten = [] := by
  have h := claim_C9 envC9 "quiet.wav" "out" detNone rfl rfl rfl
    [0, 1, 0, -1] [] 16000 rfl rfl
  exact ⟨rfl, rfl, h.1, h.2⟩

/-- C10: whenever the input path exists and the (recursive, idempotent)
mkdir call succeeds, the output directory is created — for every possible
outcome of the later stages, so in particular it exists when the pipeline
subsequently fails; and the mkdir call precedes model acquisition and
decode: if it fails, no hub load and no decode ever run. -/
theorem claim_C10 (env : Env) (p d : String) :
    (env.inputIsFile = true → env.mkdirResult = .ok () →
      (process_audio env p d).dirCreated = true) ∧
    (∀ e, env.inputIsFile = true → env.mkdirResult = .error e →
      (process_audio env p d).hubLoadCalls = 0 ∧
      (process_audio env p d).downloadAttempted = false ∧
      (process_audio env p d).decodeAttempted = false ∧
      (process_audio env p d).dirCreated = false ∧
      (process_audio env p d).result = .error e) := by
  constructor
  · intro h1 h2
    simp [process_audio, h1, h2]
  · intro e h1 h2
    simp [process_audio, h1, h2]

/-- An environment where the input exists but every acquisition strategy
fails — the pipeline ends in the error shape after mkdir ran. -/
def envC10 : Env :=
  { baseEnv with hubAttempt1 := .error "name resolution failed",
                 hubAttempt2 := .error "no cached repository",
                 hubAttempt3 := .error "download refused" }

/-- C10 witness: on a model-unavailable failure the result is the error
shape, yet the output directory was created. -/
theorem claim_C10_witness :
    envC10.inputIsFile = true ∧
    envC10.mkdirResult = .ok () ∧
    (process_audio envC10 "a.wav" "out").dirCreated = true ∧
    (process_audio envC10 "a.wav" "out").result =
      .error ("All attempts to load VAD model failed: " ++ "download refused") := by
  have h := (claim_C10 envC10 "a.wav" "out").1 rfl rfl
  exact ⟨rfl, rfl, h, rfl⟩

end VadProcessor
